import Mathlib

/-!
Verification of the BLE context provider of the CUFabric mobile app
(`src/CUFabric/ble-context.js`) against its specification.

The development is a shallow embedding: the JavaScript functions of
`ble-context.js` are translated into Lean definitions, with the
asynchronous BLE platform calls (promise resolution or rejection,
decoded payloads, timer races) supplied as explicit parameters, and
the React state (`sensor`, `sensorData`) threaded explicitly.
-/

/-! ## Data model -/

/-- Capacity of the sample buffer: the literal 25 of
`ble-context.js` line 175 (`if (new1Data.length > 25)`). -/
def maxSamples : Nat := 25

/-- The append performed by `readSensorValue` on the `sensorData`
state, `ble-context.js` lines 171-177:
`new1Data = [...sensorData, sample]` followed by
`if (new1Data.length > 25) new1Data.shift()`.
`Array.prototype.shift` removes the first (oldest) element, which is
`List.tail` on the embedded list. -/
def appendSensorData (sensorData : List Float) (sample : Float) : List Float :=
  if (sensorData ++ [sample]).length > maxSamples then (sensorData ++ [sample]).tail
  else sensorData ++ [sample]

/-- A connected BLE device handle as used by `ble-context.js`: the
only attribute the code reads is its `id`. -/
structure Device where
  id : String
deriving Repr, DecidableEq

/-- The React state of `BLEProvider` that the claims are about:
`sensor` (line 52, initially `undefined`, embedded as `none`) and
`sensorData` (line 57, initially `[0]`). -/
structure BLEState where
  sensor : Option Device
  sensorData : List Float

/-- Initial `sensorData` state: `useState([0])`, line 57. -/
def sensorDataInit : List Float := [0]

/-! ## readSensorValue (lines 144-189) -/

/-- The JavaScript value returned by the promise of
`readSensorValue`: either a number (the sentinel -1 or a decoded
byte) or `undefined` (indexing past the end of an empty byte
buffer at line 167). -/
inductive ReadReturn where
  | num (v : Int)
  | undefined
deriving Repr, DecidableEq

/-- Environment input to one `readSensorValue` call: the outcome of
`blemanager.readCharacteristicForDevice` (lines 151-156) together
with the base64 decoding at line 166.
* `rejected`: the read promise rejects (handled by the catch at
  lines 185-188);
* `resolvedBad`: the read promise resolves but the body of the
  `then` handler throws while decoding, e.g. `characteristic.value`
  is not a string so `new Buffer(value, base64)` throws; the throw
  is caught by the same catch handler;
* `resolvedBytes bytes`: the read promise resolves and the base64
  payload decodes to the given byte buffer (`Uint8Array.from`
  yields values in [0,255], embedded as `Fin 256`), possibly empty. -/
inductive ReadOutcome where
  | rejected
  | resolvedBad
  | resolvedBytes (bytes : List (Fin 256))

/-- The sample recorded for a decoded first byte `b`:
`Math.sin(value / 2)`, line 171. -/
def sampleOf (b : Fin 256) : Float := Float.sin (b.val.toFloat / 2)

/-- JavaScript `undefined` coerced to a number is `NaN`; embedded as
the IEEE-754 `0.0 / 0.0`. -/
def jsNaN : Float := (0 : Float) / 0

/-- The sample recorded when the decoded byte buffer is empty:
`value` at line 167 is `undefined`, so line 171 computes
`Math.sin(undefined / 2) = Math.sin(NaN) = NaN`. -/
def nanSample : Float := Float.sin (jsNaN / 2)

/-- Result of one `readSensorValue` call: the value its promise
resolves with, the post state, and whether a BLE characteristic
read was issued at all. -/
structure ReadResult where
  ret : ReadReturn
  post : BLEState
  readIssued : Bool

/-- Embedding of `readSensorValue`, `ble-context.js` lines 144-189.
* `sensor == undefined` (line 146): return -1 without issuing a read
  and without touching `sensorData`;
* otherwise a read is issued; on rejection or a decode throw, the
  catch at lines 185-188 returns -1 and `setSensorData` is never
  called;
* on a decoded buffer, line 167 takes the first byte (or
  `undefined` when the buffer is empty), line 171 appends
  `Math.sin(value / 2)` through `appendSensorData`, and line 183
  returns the raw `value`. -/
def readSensorValue (st : BLEState) (outcome : ReadOutcome) : ReadResult :=
  match st.sensor with
  | none => ⟨.num (-1), st, false⟩
  | some _ =>
    match outcome with
    | .rejected => ⟨.num (-1), st, true⟩
    | .resolvedBad => ⟨.num (-1), st, true⟩
    | .resolvedBytes bytes =>
      match bytes.head? with
      | none => ⟨.undefined, ⟨st.sensor, appendSensorData st.sensorData nanSample⟩, true⟩
      | some b => ⟨.num b.val, ⟨st.sensor, appendSensorData st.sensorData (sampleOf b)⟩, true⟩

/-- Iterated `readSensorValue` calls (the poll loop of lines
272-276): each call consumes one environment outcome and the post
state feeds the next call. -/
def runReads (st : BLEState) (outs : List ReadOutcome) : BLEState :=
  outs.foldl (fun s o => (readSensorValue s o).post) st

/-! ## Sample buffer lemmas -/

theorem appendSensorData_of_lt (xs : List Float) (v : Float) (h : xs.length < maxSamples) :
    appendSensorData xs v = xs ++ [v] := by
  unfold appendSensorData
  rw [if_neg]
  simp only [List.length_append, List.length_singleton, maxSamples] at *
  omega

theorem appendSensorData_of_ge (xs : List Float) (v : Float) (h : maxSamples ≤ xs.length) :
    appendSensorData xs v = xs.tail ++ [v] := by
  unfold appendSensorData
  rw [if_pos]
  · cases xs with
    | nil => simp [maxSamples] at h
    | cons x t => simp
  · simp only [List.length_append, List.length_singleton, maxSamples] at *
    omega

/-- The characterisation of the iterated append: starting from a
buffer within capacity, folding appends keeps exactly the most
recent `maxSamples` elements, i.e. the result is the concatenation
with the oversupply dropped from the front. -/
theorem foldl_appendSensorData (l : List Float) : ∀ init : List Float,
    init.length ≤ maxSamples →
    l.foldl appendSensorData init = (init ++ l).drop (init.length + l.length - maxSamples) := by
  induction l with
  | nil =>
    intro init h
    simp [Nat.sub_eq_zero_of_le h]
  | cons a t ih =>
    intro init h
    rcases Nat.lt_or_ge init.length maxSamples with hlt | hge
    · have hstep : appendSensorData init a = init ++ [a] := appendSensorData_of_lt init a hlt
      have hlen : (init ++ [a]).length ≤ maxSamples := by
        simp only [List.length_append, List.length_singleton]
        omega
      rw [List.foldl_cons, hstep, ih (init ++ [a]) hlen, List.append_assoc,
        List.singleton_append]
      congr 1
      simp only [List.length_append, List.length_singleton, List.length_cons,
        List.length_nil, maxSamples]
      omega
    · have h25 : init.length = maxSamples := Nat.le_antisymm h hge
      cases init with
      | nil => simp [maxSamples] at h25
      | cons x xs =>
        have hstep : appendSensorData (x :: xs) a = xs ++ [a] := by
          have := appendSensorData_of_ge (x :: xs) a hge
          simpa using this
        have hlen : (xs ++ [a]).length ≤ maxSamples := by
          simp only [List.length_cons] at h25
          simp only [List.length_append, List.length_singleton]
          omega
        rw [List.foldl_cons, hstep, ih (xs ++ [a]) hlen, List.append_assoc,
          List.singleton_append]
        have hcons : (x :: xs) ++ a :: t = x :: (xs ++ a :: t) := by simp
        obtain ⟨m, hm⟩ : ∃ m, (x :: xs).length + (a :: t).length - maxSamples = m + 1 := by
          refine ⟨(x :: xs).length + (a :: t).length - maxSamples - 1, ?_⟩
          simp only [List.length_cons, maxSamples] at h25 ⊢
          omega
        rw [hcons, hm, List.drop_succ_cons]
        congr 1
        simp only [List.length_cons, List.length_append, List.length_singleton,
          List.length_nil, maxSamples] at hm h25 ⊢
        omega

theorem foldl_appendSensorData_length (init : List Float) (h : init.length ≤ maxSamples)
    (l : List Float) : (l.foldl appendSensorData init).length ≤ maxSamples := by
  rw [foldl_appendSensorData l init h]
  simp only [List.length_drop, List.length_append, maxSamples] at h ⊢
  omega

/-- The last element of the buffer after an append is always the
newly appended sample (shift only ever removes the head). -/
theorem appendSensorData_getLast (xs : List Float) (v : Float) :
    (appendSensorData xs v).getLast? = some v := by
  unfold appendSensorData
  split
  · rename_i h
    cases xs with
    | nil => simp [maxSamples] at h
    | cons x t => simp [List.getLast?_concat]
  · simp [List.getLast?_concat]

/-! ## Claim theorems about the sample buffer and readSensorValue -/

/-- Claim C1: for every sequence of appends to the sample buffer
starting within capacity, the length never exceeds 25; an append to
a full buffer drops exactly the oldest (first) element and adds the
new sample at the end (pure FIFO eviction, preserving the order of
the retained elements), and an append to a non-full buffer is a
plain append. -/
theorem sampleBuffer_capacity_fifo (init : List Float) (h : init.length ≤ 25)
    (appends : List Float) :
    ((appends.foldl appendSensorData init).length ≤ 25)
    ∧ (∀ xs : List Float, ∀ v : Float, xs.length = 25 →
        appendSensorData xs v = xs.tail ++ [v])
    ∧ (∀ xs : List Float, ∀ v : Float, xs.length < 25 →
        appendSensorData xs v = xs ++ [v]) := by
  refine ⟨?_, ?_, ?_⟩
  · exact foldl_appendSensorData_length init (by simpa [maxSamples] using h) appends
  · intro xs v hx
    exact appendSensorData_of_ge xs v (by simp [maxSamples, hx])
  · intro xs v hx
    exact appendSensorData_of_lt xs v (by simpa [maxSamples] using hx)

/-- Witness for C1 at the initial buffer `[0]`, 26 consecutive
appends, and one append to a full buffer. -/
theorem sampleBuffer_capacity_fifo_witness :
    (((List.replicate 26 (0 : Float)).foldl appendSensorData sensorDataInit).length ≤ 25)
    ∧ appendSensorData (List.replicate 25 (0 : Float)) 1
        = (List.replicate 25 (0 : Float)).tail ++ [1] := by
  constructor
  · exact (sampleBuffer_capacity_fifo sensorDataInit (by simp [sensorDataInit])
      (List.replicate 26 0)).1
  · exact (sampleBuffer_capacity_fifo sensorDataInit (by simp [sensorDataInit])
      (List.replicate 26 0)).2.1 _ _ (by simp)

/-- Claim C2: with an absent sensor handle, `readSensorValue`
returns the sentinel -1, leaves the whole state (in particular the
sample buffer) unchanged, and issues no BLE characteristic read. -/
theorem readValue_absent_handle (st : BLEState) (out : ReadOutcome)
    (h : st.sensor = none) :
    readSensorValue st out = ⟨ReadReturn.num (-1), st, false⟩ := by
  simp only [readSensorValue, h]

/-- Witness for C2 at the initial state. -/
theorem readValue_absent_handle_witness :
    readSensorValue ⟨none, sensorDataInit⟩ ReadOutcome.rejected
      = ⟨ReadReturn.num (-1), ⟨none, sensorDataInit⟩, false⟩ :=
  readValue_absent_handle ⟨none, sensorDataInit⟩ ReadOutcome.rejected rfl

/-- Claim C3: a successful characteristic read whose payload decodes
to first byte `b` appends exactly one sample, namely
`sin(b / 2.0)`, to the sample buffer (the appended sample is the
last element; below capacity the buffer is exactly the old buffer
plus that one sample) and returns the raw byte value `b`. -/
theorem readValue_success_appends (st : BLEState) (d : Device)
    (bytes : List (Fin 256)) (b : Fin 256)
    (hs : st.sensor = some d) (hb : bytes.head? = some b) :
    readSensorValue st (ReadOutcome.resolvedBytes bytes)
        = ⟨ReadReturn.num b.val,
           ⟨st.sensor, appendSensorData st.sensorData (sampleOf b)⟩, true⟩
    ∧ (appendSensorData st.sensorData (sampleOf b)).getLast? = some (sampleOf b)
    ∧ sampleOf b = Float.sin (b.val.toFloat / 2)
    ∧ (st.sensorData.length < 25 →
        appendSensorData st.sensorData (sampleOf b) = st.sensorData ++ [sampleOf b]) := by
  refine ⟨?_, appendSensorData_getLast _ _, rfl, ?_⟩
  · simp only [readSensorValue, hs, hb]
  · intro hlen
    exact appendSensorData_of_lt _ _ (by simpa [maxSamples] using hlen)

/-- Witness for C3: connected state, payload decoding to byte 32. -/
theorem readValue_success_appends_witness :
    readSensorValue ⟨some ⟨"D1"⟩, sensorDataInit⟩ (ReadOutcome.resolvedBytes [32])
        = ⟨ReadReturn.num ((32 : Fin 256)).val,
           ⟨some ⟨"D1"⟩, appendSensorData sensorDataInit (sampleOf 32)⟩, true⟩
    ∧ (appendSensorData sensorDataInit (sampleOf 32)).getLast? = some (sampleOf 32)
    ∧ sampleOf 32 = Float.sin (((32 : Fin 256)).val.toFloat / 2)
    ∧ (sensorDataInit.length < 25 →
        appendSensorData sensorDataInit (sampleOf 32) = sensorDataInit ++ [sampleOf 32]) :=
  readValue_success_appends ⟨some ⟨"D1"⟩, sensorDataInit⟩ ⟨"D1"⟩ [32] 32 rfl rfl

/-- Claim C4: when the characteristic read rejects, or it resolves
but decoding throws, `readSensorValue` returns the sentinel -1 and
the state (in particular the sample buffer) is exactly the state
before the call. -/
theorem readValue_error_atomic (st : BLEState) (d : Device)
    (hs : st.sensor = some d) :
    readSensorValue st ReadOutcome.rejected = ⟨ReadReturn.num (-1), st, true⟩
    ∧ readSensorValue st ReadOutcome.resolvedBad = ⟨ReadReturn.num (-1), st, true⟩ := by
  constructor <;> simp only [readSensorValue, hs]

/-- Witness for C4 at a connected state. -/
theorem readValue_error_atomic_witness :
    readSensorValue ⟨some ⟨"D1"⟩, sensorDataInit⟩ ReadOutcome.rejected
      = ⟨ReadReturn.num (-1), ⟨some ⟨"D1"⟩, sensorDataInit⟩, true⟩
    ∧ readSensorValue ⟨some ⟨"D1"⟩, sensorDataInit⟩ ReadOutcome.resolvedBad
      = ⟨ReadReturn.num (-1), ⟨some ⟨"D1"⟩, sensorDataInit⟩, true⟩ :=
  readValue_error_atomic ⟨some ⟨"D1"⟩, sensorDataInit⟩ ⟨"D1"⟩ rfl

/-- One-byte successful reads thread the sensor unchanged and fold
`appendSensorData` over the decoded samples. -/
theorem runReads_success (d : Device) (bs : List (Fin 256)) : ∀ data : List Float,
    runReads ⟨some d, data⟩ (bs.map fun b => ReadOutcome.resolvedBytes [b])
      = ⟨some d, (bs.map sampleOf).foldl appendSensorData data⟩ := by
  induction bs with
  | nil => intro data; rfl
  | cons b t ih =>
    intro data
    have hstep : (readSensorValue ⟨some d, data⟩ (ReadOutcome.resolvedBytes [b])).post
        = ⟨some d, appendSensorData data (sampleOf b)⟩ := rfl
    simp only [runReads, List.map_cons, List.foldl_cons, hstep]
    simpa only [runReads] using ih (appendSensorData data (sampleOf b))

/-- Claim C5: starting from the initial buffer `[0]`, after 30
consecutive successful one-byte reads the buffer has length exactly
25 and is exactly the last 25 decoded samples in chronological
(oldest-first) order; the initial 0 and the 5 oldest samples have
been evicted. -/
theorem thirty_reads_window (d : Device) (bs : List (Fin 256)) (h : bs.length = 30) :
    (runReads ⟨some d, sensorDataInit⟩
        (bs.map fun b => ReadOutcome.resolvedBytes [b])).sensorData
      = (bs.map sampleOf).drop 5
    ∧ (runReads ⟨some d, sensorDataInit⟩
        (bs.map fun b => ReadOutcome.resolvedBytes [b])).sensorData.length = 25 := by
  have h1 := runReads_success d bs sensorDataInit
  have h2 := foldl_appendSensorData (bs.map sampleOf) sensorDataInit
    (by simp [sensorDataInit, maxSamples])
  have hlen : (bs.map sampleOf).length = 30 := by simp [h]
  have hidx : sensorDataInit.length + (bs.map sampleOf).length - maxSamples = 6 := by
    simp [sensorDataInit, hlen, maxSamples]
  have hcons : sensorDataInit ++ bs.map sampleOf = (0 : Float) :: bs.map sampleOf := by
    simp [sensorDataInit]
  rw [h1]
  show List.foldl appendSensorData sensorDataInit (bs.map sampleOf) = (bs.map sampleOf).drop 5
    ∧ (List.foldl appendSensorData sensorDataInit (bs.map sampleOf)).length = 25
  rw [h2, hidx, hcons]
  constructor
  · rw [show (6 : Nat) = 5 + 1 from rfl, List.drop_succ_cons]
  · simp [List.length_drop, List.length_cons, hlen]

/-- Witness for C5: 30 reads all decoding to byte 0. -/
theorem thirty_reads_window_witness :
    (runReads ⟨some ⟨"D1"⟩, sensorDataInit⟩
        ((List.replicate 30 (0 : Fin 256)).map fun b => ReadOutcome.resolvedBytes [b])).sensorData
      = ((List.replicate 30 (0 : Fin 256)).map sampleOf).drop 5
    ∧ (runReads ⟨some ⟨"D1"⟩, sensorDataInit⟩
        ((List.replicate 30 (0 : Fin 256)).map fun b => ReadOutcome.resolvedBytes [b])).sensorData.length = 25 :=
  thirty_reads_window ⟨"D1"⟩ (List.replicate 30 0) (by simp)

/-- Claim C10: a successful read whose payload decodes to an empty
byte buffer does not return the -1 sentinel and does not leave the
buffer unchanged: it appends the sample
`Math.sin(undefined / 2) = Math.sin(NaN) = NaN` and returns the
JavaScript value `undefined`; for a non-empty payload the returned
value is always the first byte, an integer in [0,255], which is
disjoint from the -1 failure sentinel. -/
theorem readValue_empty_payload (st : BLEState) (d : Device)
    (hs : st.sensor = some d) :
    (readSensorValue st (ReadOutcome.resolvedBytes [])).ret = ReadReturn.undefined
    ∧ (readSensorValue st (ReadOutcome.resolvedBytes [])).ret ≠ ReadReturn.num (-1)
    ∧ (readSensorValue st (ReadOutcome.resolvedBytes [])).post.sensorData
        = appendSensorData st.sensorData nanSample
    ∧ nanSample = Float.sin (jsNaN / 2)
    ∧ (∀ bytes : List (Fin 256), ∀ b : Fin 256, bytes.head? = some b →
        (readSensorValue st (ReadOutcome.resolvedBytes bytes)).ret = ReadReturn.num b.val
        ∧ 0 ≤ (b.val : Int) ∧ (b.val : Int) ≤ 255
        ∧ (readSensorValue st (ReadOutcome.resolvedBytes bytes)).ret ≠ ReadReturn.num (-1)) := by
  refine ⟨by simp [readSensorValue, hs], by simp [readSensorValue, hs], by simp [readSensorValue, hs], rfl, ?_⟩
  intro bytes b hb
  have hlt := b.isLt
  refine ⟨by simp [readSensorValue, hs, hb], by omega, by omega, ?_⟩
  simp only [readSensorValue, hs, hb, ne_eq, ReadReturn.num.injEq]
  omega

/-- Witness for C10: connected state, empty payload, and a one-byte
payload decoding to byte 7. -/
theorem readValue_empty_payload_witness :
    (readSensorValue ⟨some ⟨"D1"⟩, sensorDataInit⟩ (ReadOutcome.resolvedBytes [])).ret
        = ReadReturn.undefined
    ∧ (readSensorValue ⟨some ⟨"D1"⟩, sensorDataInit⟩ (ReadOutcome.resolvedBytes [])).ret
        ≠ ReadReturn.num (-1)
    ∧ (readSensorValue ⟨some ⟨"D1"⟩, sensorDataInit⟩ (ReadOutcome.resolvedBytes [])).post.sensorData
        = appendSensorData sensorDataInit nanSample
    ∧ (readSensorValue ⟨some ⟨"D1"⟩, sensorDataInit⟩ (ReadOutcome.resolvedBytes [7])).ret
        = ReadReturn.num ((7 : Fin 256)).val := by
  have h := readValue_empty_payload ⟨some ⟨"D1"⟩, sensorDataInit⟩ ⟨"D1"⟩ rfl
  exact ⟨h.1, h.2.1, h.2.2.1, (h.2.2.2.2 [7] 7 rfl).1⟩

/-! ## The timeout wrapper and emitCurrentValue (lines 194-217) -/

/-- The polling and timeout interval in milliseconds:
`useRef(200)`, line 201. -/
def pollTime : Nat := 200

/-- Timing abstraction of one `readSensorValue()` promise raced by
the `timeout` wrapper of lines 194-195: `settleTime` is the tick at
which the read promise settles (`none` when it never does),
`mutates` records whether that settlement runs the success path
calling `setSensorData`, and `result` is the value the promise
resolves with (the promise never rejects: every failure is caught
at lines 185-188 and turned into -1). -/
structure TimedRead where
  settleTime : Option Nat
  mutates : Bool
  result : ReadReturn

/-- The race
`Promise.race([promise, new Promise((_r, rej) => setTimeout(rej, time))])`:
the timeout branch wins exactly when the read promise has not
settled by the deadline. -/
def timeoutWins (t : TimedRead) (limit : Nat) : Bool :=
  match t.settleTime with
  | none => true
  | some s => limit < s

/-- JavaScript string coercion of the resolved value as used in the
console line at line 211. -/
def showReturn : ReadReturn → String
  | .num v => toString v
  | .undefined => "undefined"

/-- Embedding of `emitCurrentValue`, lines 208-217: on resolution
of the race the value is logged and passed through; on the timeout
branch the race rejects with `undefined` (a bare `rej()` invoked by
`setTimeout`), and the catch handler `if (error) console.log(error)`
is guarded by the truthiness of the reason, so the `undefined`
timeout reason logs nothing. First component: console lines;
second: the value the wrapper emits, if any. -/
def emitCurrentValue (t : TimedRead) : List String × Option ReadReturn :=
  if timeoutWins t pollTime then
    ([], none)
  else
    (["Current value: " ++ showReturn t.result], some t.result)

/-- Whether the `setSensorData` mutation of this read has run by
tick `tm`: the mutation runs at the tick the read promise settles,
and only on the mutating path. -/
def mutationObservableBy (t : TimedRead) (tm : Nat) : Bool :=
  match t.settleTime with
  | none => false
  | some s => decide (s ≤ tm) && t.mutates

/-- Counterexample to claim C6 as stated: with a read that never
settles, the timeout wins the 200 ms race, yet the wrapper logs
nothing at all: the race rejects with `undefined` from
`setTimeout(rej, time)`, and the catch guard `if (error)` is falsy
for `undefined`, so the claimed timeout log never happens. -/
theorem timeout_logs_counterexample :
    timeoutWins ⟨none, false, ReadReturn.num (-1)⟩ pollTime = true
    ∧ emitCurrentValue ⟨none, false, ReadReturn.num (-1)⟩ = ([], none) := by
  constructor <;> rfl

/-- Claim C6 (amended): if the 200 ms timeout fires first, the
wrapper emits no value and logs nothing (the timeout rejection
reason is `undefined`, which the catch guard filters out), and no
sample-buffer mutation from that read is observable at or before
the timeout deadline, regardless of whether the underlying read
later resolves. -/
theorem timeout_no_emit_no_mutation (t : TimedRead)
    (h : timeoutWins t pollTime = true) :
    emitCurrentValue t = ([], none)
    ∧ (∀ tm : Nat, tm ≤ pollTime → mutationObservableBy t tm = false) := by
  constructor
  · simp [emitCurrentValue, h]
  · intro tm htm
    cases hset : t.settleTime with
    | none => simp [mutationObservableBy, hset]
    | some s =>
      have hlt : pollTime < s := by
        unfold timeoutWins at h
        rw [hset] at h
        simpa using h
      have hns : ¬ (s ≤ tm) := by omega
      simp [mutationObservableBy, hset, hns]

/-- Witness for amended C6: a mutating read settling at tick 300,
after the deadline. -/
theorem timeout_no_emit_no_mutation_witness :
    timeoutWins ⟨some 300, true, ReadReturn.num 5⟩ pollTime = true
    ∧ emitCurrentValue ⟨some 300, true, ReadReturn.num 5⟩ = ([], none)
    ∧ mutationObservableBy ⟨some 300, true, ReadReturn.num 5⟩ pollTime = false := by
  have h := timeout_no_emit_no_mutation ⟨some 300, true, ReadReturn.num 5⟩ (by decide)
  exact ⟨by decide, h.1, h.2 pollTime (Nat.le_refl _)⟩

/-! ## scanAndConnect (lines 78-130) -/

/-- Outcome of an asynchronous BLE platform call: the promise
either resolves with a value or rejects with an error. -/
inductive POutcome (α : Type) where
  | ok (a : α)
  | err (e : String)

/-- Environment input to one connect sequence of `scanAndConnect`
for a matched device: the outcomes of `connectToDevice` (line 100),
`discoverAllServicesAndCharacteristicsForDevice` (line 103, only
reached when the connect resolves) and `cancelDeviceConnection`
(line 119, only reached on the failure path). -/
structure ConnectEnv where
  connect : POutcome Device
  discover : POutcome Device
  cancel : POutcome Device

/-- Observable trace of one connect sequence: the device stored by
`setSensor` if it was called, the device id passed to
`cancelDeviceConnection` if a disconnect was attempted, the
`console.error` lines, and the rejection escaping the whole promise
chain, if any. -/
structure ConnectTrace where
  sensorSet : Option Device
  cancelIssued : Option String
  errorsLogged : List String
  propagated : Option String

/-- The catch handler of lines 114-127: log `Uh oh!`, issue a
best-effort disconnect for the id of the advertised device, then
log the original error once the disconnect settles; a secondary
failure of the disconnect is logged as well; no branch rethrows, so
nothing propagates out of the chain. -/
def handleConnectFailure (device : Device) (e : String) (cancel : POutcome Device) : ConnectTrace :=
  match cancel with
  | .ok _ => ⟨none, some device.id, ["Uh oh!", e], none⟩
  | .err e2 => ⟨none, some device.id, ["Uh oh!", e, e2], none⟩

/-- Embedding of the connect sequence of `scanAndConnect`, lines
99-127, for a device that passed the name filter: connect, then
discover all services and characteristics, then `setSensor` with
the discovered device; any rejection along the chain lands in the
shared catch handler. -/
def scanConnectFlow (device : Device) (env : ConnectEnv) : ConnectTrace :=
  match env.connect with
  | .err e => handleConnectFailure device e env.cancel
  | .ok _ =>
    match env.discover with
    | .err e => handleConnectFailure device e env.cancel
    | .ok d2 => ⟨some d2, none, [], none⟩

/-- Claim C7: in every scan cycle in which the connect promise or
the service-resolution promise rejects, `setSensor` is never called
(the handle stays absent), a disconnect is attempted for the failed
advertisement device id, no rejection escapes the connector, and a
secondary disconnect failure appears in the error log only. -/
theorem connect_failure_cleanup (device : Device) (env : ConnectEnv)
    (h : (∃ e, env.connect = POutcome.err e)
        ∨ (∃ d e, env.connect = POutcome.ok d ∧ env.discover = POutcome.err e)) :
    (scanConnectFlow device env).sensorSet = none
    ∧ (scanConnectFlow device env).cancelIssued = some device.id
    ∧ (scanConnectFlow device env).propagated = none
    ∧ (∀ e2, env.cancel = POutcome.err e2 →
        e2 ∈ (scanConnectFlow device env).errorsLogged) := by
  rcases h with ⟨e, he⟩ | ⟨d, e, hc, hd⟩
  · cases hcan : env.cancel with
    | ok c => simp [scanConnectFlow, handleConnectFailure, he, hcan]
    | err e2 => simp [scanConnectFlow, handleConnectFailure, he, hcan]
  · cases hcan : env.cancel with
    | ok c => simp [scanConnectFlow, handleConnectFailure, hc, hd, hcan]
    | err e2 => simp [scanConnectFlow, handleConnectFailure, hc, hd, hcan]

/-- Witness for C7: connect rejects and the follow-up disconnect
rejects as well. -/
theorem connect_failure_cleanup_witness :
    (scanConnectFlow ⟨"D1"⟩
        ⟨POutcome.err "connect failed", POutcome.ok ⟨"D1"⟩, POutcome.err "cancel failed"⟩).sensorSet = none
    ∧ (scanConnectFlow ⟨"D1"⟩
        ⟨POutcome.err "connect failed", POutcome.ok ⟨"D1"⟩, POutcome.err "cancel failed"⟩).cancelIssued = some "D1"
    ∧ (scanConnectFlow ⟨"D1"⟩
        ⟨POutcome.err "connect failed", POutcome.ok ⟨"D1"⟩, POutcome.err "cancel failed"⟩).propagated = none
    ∧ "cancel failed" ∈ (scanConnectFlow ⟨"D1"⟩
        ⟨POutcome.err "connect failed", POutcome.ok ⟨"D1"⟩, POutcome.err "cancel failed"⟩).errorsLogged := by
  have h := connect_failure_cleanup ⟨"D1"⟩
    ⟨POutcome.err "connect failed", POutcome.ok ⟨"D1"⟩, POutcome.err "cancel failed"⟩
    (Or.inl ⟨"connect failed", rfl⟩)
  exact ⟨h.1, h.2.1, h.2.2.1, h.2.2.2 "cancel failed" rfl⟩

/-! ## Component teardown (lines 226-257) -/

/-- Initial value of the `sensor` state: `useState(undefined)`,
line 52. -/
def initialSensor : Option Device := none

/-- The body of the cleanup returned by the mount effect, lines
251-256: `if (sensor) blemanager.cancelDeviceConnection(sensor.id)`
evaluated on whatever `sensor` value the closure sees; yields the
device id a disconnect is issued for, if any. -/
def cleanupDisconnect (sensor : Option Device) : Option String :=
  match sensor with
  | some d => some d.id
  | none => none

/-- The disconnect actually issued at unmount. The mount effect at
lines 226-257 has an empty dependency list, so it runs exactly once
per mount/unmount cycle and its cleanup closure captures the
`sensor` binding of the first render, which is the initial
`undefined`; the `sensor` value current at unmount is never
consulted by that closure. -/
def teardownIssued (_sensorAtUnmount : Option Device) : Option String :=
  cleanupDisconnect initialSensor

/-- Claim C8 evaluated on the code: at unmount with a connected
handle present, the claim requires a disconnect for that handle,
which is what the cleanup body computes on the current sensor
(second conjunct), but the code issues no disconnect at all (first
conjunct), because the cleanup closure captured the stale
first-render `sensor = undefined`. -/
theorem teardown_stale_closure :
    teardownIssued (some ⟨"D1"⟩) = none
    ∧ cleanupDisconnect (some ⟨"D1"⟩) = some "D1" := ⟨rfl, rfl⟩

/-! ## Device selection (lines 80-129) -/

/-- A device as it appears in a scan advertisement callback:
`device` itself may be null, and `device.name` may be null. -/
structure AdvDevice where
  id : String
  name : Option String

/-- Action taken by the scan callback of lines 80-129 for one
invocation. -/
inductive ScanAction where
  | scanErrorLogged
  | ignored
  | stopAndConnect (id : String)
deriving Repr, DecidableEq

/-- Embedding of the scan callback of `scanAndConnect`, lines
80-129: on a scan error, log and return (lines 81-87); otherwise
test `device && device.name && device.name.startsWith('Clarkson')`
(line 91) under JavaScript truthiness (a missing device, a missing
name and an empty name are all falsy), and on a match stop the scan
(line 93) and start the connect sequence for `device.id`
(`scanConnectFlow`). -/
def scanCallback (error : Option String) (device : Option AdvDevice) : ScanAction :=
  match error with
  | some _ => .scanErrorLogged
  | none =>
    match device with
    | none => .ignored
    | some d =>
      match d.name with
      | none => .ignored
      | some n =>
        if !n.isEmpty && n.startsWith "Clarkson" then .stopAndConnect d.id
        else .ignored

theorem empty_name_no_match : ("" : String).startsWith "Clarkson" = false := by decide

/-- Claim C9: a discovered advertisement (scan callback invoked
without error) stops the scan and begins the connect sequence if
and only if the advertised device name starts with the literal
"Clarkson"; when it does, the connect sequence targets exactly the
advertised device id; advertisements with no device or no name are
ignored. -/
theorem device_selection_clarkson (dev : Option AdvDevice) :
    ((∃ i, scanCallback none dev = ScanAction.stopAndConnect i)
      ↔ (∃ d, ∃ n, dev = some d ∧ d.name = some n ∧ n.startsWith "Clarkson" = true))
    ∧ (∀ d, dev = some d → ∀ i,
        scanCallback none dev = ScanAction.stopAndConnect i → i = d.id)
    ∧ (scanCallback none none = ScanAction.ignored)
    ∧ (∀ d, dev = some d → d.name = none →
        scanCallback none dev = ScanAction.ignored) := by
  refine ⟨⟨?_, ?_⟩, ?_, rfl, ?_⟩
  · rintro ⟨i, hi⟩
    match dev with
    | none => simp [scanCallback] at hi
    | some d =>
      cases hname : d.name with
      | none => simp [scanCallback, hname] at hi
      | some n =>
        refine ⟨d, n, rfl, hname, ?_⟩
        by_cases hsw : n.startsWith "Clarkson" = true
        · exact hsw
        · exfalso
          simp [scanCallback, hname, hsw] at hi
  · rintro ⟨d, n, rfl, hname, hsw⟩
    by_cases hemp : n.isEmpty = true
    · exfalso
      have hn : n = "" := (String.isEmpty_iff n).mp hemp
      rw [hn, empty_name_no_match] at hsw
      exact Bool.false_ne_true hsw
    · exact ⟨d.id, by simp [scanCallback, hname, hsw, hemp]⟩
  · rintro d rfl i hi
    cases hname : d.name with
    | none => simp [scanCallback, hname] at hi
    | some n =>
      simp only [scanCallback, hname] at hi
      split at hi
      · injection hi with h
        exact h.symm
      · exact absurd hi (by simp)
  · rintro d rfl hname
    simp [scanCallback, hname]

/-- Witness for C9: the null advertisement is ignored. -/
theorem device_selection_clarkson_witness :
    scanCallback none none = ScanAction.ignored :=
  (device_selection_clarkson none).2.2.1
